import Mathlib

/-!
Shallow embedding of the reply-generation pipeline of the Social Media
Reply Generator repository (app/logic.py, app/model.py, app/db/database.py)
and theorems settling the frozen claims about it.

Python strings are modelled as Lean `String` values (a packed `List Char`);
the character-level helpers below reproduce the Python string primitives
the source uses (`str.strip`, `str.split`, `in`, `str.startswith`, `len`,
slicing, `str.lower`, `str.upper`). External collaborators — the chat model
invocation, `json.loads`, the MongoDB connection and insert — are passed in
as explicit parameters, and a raised Python exception is `Except.error`.
-/

namespace SMRG

/-- Whitespace predicate of the model of Python `str.strip()`: the texts
the claims touch only carry ASCII whitespace, which `Char.isWhitespace`
covers. -/
def pyWs (c : Char) : Bool := c.isWhitespace

/-- Model of Python `str.strip()` on a character list: remove leading and
trailing whitespace. -/
def pyStripL (l : List Char) : List Char :=
  List.rdropWhile pyWs (l.dropWhile pyWs)

/-- Model of Python `str.strip()` on `String`. -/
def pyStrip (s : String) : String := ⟨pyStripL s.data⟩

/-- Model of Python `str.lower()` (the source only feeds it ASCII platform
names). -/
def pyLower (s : String) : String := ⟨s.data.map Char.toLower⟩

/-- Model of Python `str.upper()`. -/
def pyUpper (s : String) : String := ⟨s.data.map Char.toUpper⟩

/-- Model of Python `s.startswith(p)`. -/
def pyStartswith (p s : String) : Bool := p.data.isPrefixOf s.data

/-- Model of Python slicing `s[n:]` (and `len` is `s.data.length`). -/
def pyDropChars (s : String) (n : Nat) : String := ⟨s.data.drop n⟩

/-- First occurrence of `sep` in `l`: the part strictly before it and the
part strictly after it, or `none` when `sep` does not occur. This is the
left-to-right search underlying Python `in` and `str.split`. -/
def firstOcc (sep : List Char) : List Char → Option (List Char × List Char)
  | [] => if sep = [] then some ([], []) else none
  | c :: cs =>
    if sep.isPrefixOf (c :: cs) then some ([], (c :: cs).drop sep.length)
    else match firstOcc sep cs with
      | some (pre, post) => some (c :: pre, post)
      | none => none

/-- Model of Python `sep in s` (substring containment) for a non-empty
separator. -/
def pyIn (sep l : List Char) : Bool := (firstOcc sep l).isSome

/-- Part of `l` before the first occurrence of `sep`, all of `l` when `sep`
does not occur. -/
def beforeFirst (sep l : List Char) : List Char :=
  match firstOcc sep l with
  | some (pre, _) => pre
  | none => l

/-- Part of `l` after the first occurrence of `sep`, empty when `sep` does
not occur. -/
def afterFirst (sep l : List Char) : List Char :=
  match firstOcc sep l with
  | some (_, post) => post
  | none => []

/-- Fuelled worker for `splitPy`. -/
def splitPyF : Nat → List Char → List Char → List (List Char)
  | 0, _, l => [l]
  | fuel + 1, sep, l =>
    match firstOcc sep l with
    | none => [l]
    | some (pre, post) => pre :: splitPyF fuel sep post

/-- Model of Python `s.split(sep)` for a non-empty separator: the segments
of `l` delimited by the non-overlapping left-to-right occurrences of `sep`.
Fuel `l.length + 1` suffices because every found occurrence consumes at
least one character of a non-empty separator. -/
def splitPy (sep l : List Char) : List (List Char) := splitPyF (l.length + 1) sep l

/-- Opening fence of a structured-data block. -/
def fenceJson : List Char := "```json".data

/-- Generic code fence. -/
def fenceGen : List Char := "```".data

/-- Model of the fence-selection step shared verbatim by `analyze_post`
(logic.py lines 44-47) and `determine_strategy` (logic.py lines 130-133):

    if "```json" in analysis_text:
        analysis_text = analysis_text.split("```json")[1].split("```")[0].strip()
    elif "```" in analysis_text:
        analysis_text = analysis_text.split("```")[1].split("```")[0].strip()
-/
def selectL (t : List Char) : List Char :=
  if pyIn fenceJson t then
    pyStripL ((splitPy fenceGen ((splitPy fenceJson t).getD 1 [])).getD 0 [])
  else if pyIn fenceGen t then
    pyStripL ((splitPy fenceGen ((splitPy fenceGen t).getD 1 [])).getD 0 [])
  else t

/-- String-level wrapper of `selectL`. -/
def selectParseInput (t : String) : String := ⟨selectL t.data⟩

/-- Model of the Python values that flow through the pipeline records:
JSON-decoded data (strings, integers, lists and string-keyed objects cover
every value the claims touch). -/
inductive PyVal where
  | str (s : String)
  | num (n : Int)
  | vlist (xs : List PyVal)
  | dict (kvs : List (String × PyVal))

/-- Python dicts are modelled as insertion-ordered association lists. -/
abbrev PyDict := List (String × PyVal)

/-- Model of Python `k in d` and of the lookup half of `d[k]` and
`d.get(k)`. -/
def lookupKey (kvs : PyDict) (k : String) : Option PyVal :=
  match kvs with
  | [] => none
  | (k1, v) :: rest => if k1 = k then some v else lookupKey rest k

/-- Model of Python dict assignment `d[k] = v`: replace the value in place
when the key is present, append a new binding otherwise. -/
def setKey (kvs : PyDict) (k : String) (v : PyVal) : PyDict :=
  match kvs with
  | [] => [(k, v)]
  | (k1, v1) :: rest => if k1 = k then (k, v) :: rest else (k1, v1) :: setKey rest k v

/-- Model of Python subscripting `d[k]`, which raises `KeyError` when the
key is missing. -/
def pySub (kvs : PyDict) (k : String) : Except Unit PyVal :=
  match lookupKey kvs k with
  | some v => .ok v
  | none => .error ()

/-- Apostrophe, kept out of string literals. -/
def apo : String := (Char.ofNat 39).toString

mutual

/-- Model of Python `str()` as the f-strings of the source apply it to
interpolated values. -/
def pyStr : PyVal → String
  | .str s => s
  | .num n => toString n
  | .vlist xs => "[" ++ pyReprSeq xs ++ "]"
  | .dict kvs => "\x7b" ++ pyReprPairs kvs ++ "\x7d"

/-- Model of Python `repr()` as used for elements of rendered containers. -/
def pyRepr : PyVal → String
  | .str s => apo ++ s ++ apo
  | .num n => toString n
  | .vlist xs => "[" ++ pyReprSeq xs ++ "]"
  | .dict kvs => "\x7b" ++ pyReprPairs kvs ++ "\x7d"

/-- Comma-separated rendering of list elements. -/
def pyReprSeq : List PyVal → String
  | [] => ""
  | [x] => pyRepr x
  | x :: xs => pyRepr x ++ ", " ++ pyReprSeq xs

/-- Comma-separated rendering of dict entries. -/
def pyReprPairs : List (String × PyVal) → String
  | [] => ""
  | [(k, v)] => apo ++ k ++ apo ++ ": " ++ pyRepr v
  | (k, v) :: xs => apo ++ k ++ apo ++ ": " ++ pyRepr v ++ ", " ++ pyReprPairs xs

end

/-- Model of f-string interpolation of `d.get(k)`, which may be `None`. -/
def pyStrOpt : Option PyVal → String
  | some v => pyStr v
  | none => "None"

/-- Join of a list of values, all of which must be strings for Python
`sep.join` to succeed; a non-string element raises `TypeError`. -/
def pyJoinList (sep : String) : List PyVal → Except Unit String
  | [] => .ok ""
  | [.str s] => .ok s
  | .str s :: xs => do
    let rest ← pyJoinList sep xs
    .ok (s ++ sep ++ rest)
  | _ => .error ()

/-- Model of Python `sep.join(x)` as used on analysis and strategy fields:
joining a list requires every element to be a string; iterating a string
joins its characters; iterating a dict joins its keys; an integer argument
is not iterable. A failure is a raised `TypeError`. -/
def pyJoin (sep : String) : PyVal → Except Unit String
  | .vlist xs => pyJoinList sep xs
  | .str s => .ok (String.intercalate sep (s.data.map Char.toString))
  | .dict kvs => .ok (String.intercalate sep (kvs.map Prod.fst))
  | .num _ => .error ()

/-- Message passed to the chat model by the gateway. -/
inductive ChatMessage where
  | system (content : String)
  | human (content : String)

/-- Message list built by `LLMModel.generate_response` (model.py lines
35-42): the system message is added only when `system_prompt` is truthy, so
a `None` or an empty string adds no system message. -/
def mkMessages (prompt_message : String) (system_prompt : Option String) :
    List ChatMessage :=
  (match system_prompt with
   | some s => if s = "" then [] else [ChatMessage.system s]
   | none => [])
  ++ [ChatMessage.human prompt_message]

/-- Fallback text returned by the gateway when the model invocation fails
(model.py line 51). -/
def gatewayFallback : String :=
  "I couldn" ++ apo ++ "t generate a proper response at this time."

/-- Model of `LLMModel.generate_response` (model.py lines 24-51). The
network call `self.llm.invoke(messages)` is the external collaborator,
passed in as `invoke`, with `.error` a raised exception. The enclosing
`try`, whose `except Exception` clause catches every failure and returns
the fallback string, makes the function total, which the `String` result
type records. -/
def generate_response (invoke : List ChatMessage → Except Unit String)
    (prompt_message : String) (system_prompt : Option String) : String :=
  match invoke (mkMessages prompt_message system_prompt) with
  | .ok r => r
  | .error _ => gatewayFallback

/-- Model of `Database.store_reply` (database.py lines 58-86). External
state and collaborator outcomes are parameters: `dbAvailable` says whether
`cls.db` is usable once the initial `connect` attempt (which swallows its
own failures) has run, and `insertResult` is the outcome of `insert_one`,
`some id` on success and `none` when it raises, that raise being caught and
turned into a `None` return. The stored record is abstracted to whether it
carries a `created_at` key: when it does not and the database is available,
the code evaluates `datetime.now(datetime.timezone.utc)` — but `datetime`
there is the class brought in by `from datetime import datetime`, which has
no `timezone` attribute, so an `AttributeError` is raised outside every
`try` block and propagates (`Except.error`). -/
def store_reply (dbAvailable : Bool) (insertResult : Option String)
    (hasCreatedAt : Bool) : Except Unit (Option String) :=
  if !dbAvailable then .ok none
  else if !hasCreatedAt then .error ()
  else match insertResult with
    | some id => .ok (some id)
    | none => .ok none

/-- Newline followed by the four-space indentation of the triple-quoted
prompt literals of logic.py. -/
def nl : String := "\n    "

/-- System prompt of the Analyze stage (logic.py line 38). -/
def analyzer_system_prompt : String :=
  "You are an expert in social media communication analysis."

/-- Analyzer prompt of `analyze_post` (logic.py lines 23-36). -/
def analyzer_prompt (platform post_text : String) : String :=
  nl ++ "Analyze this social media post from " ++ pyUpper platform ++ ":" ++
  nl ++ nl ++ "\"" ++ post_text ++ "\"" ++
  nl ++ nl ++ "Determine:" ++
  nl ++ "1. Core intent (question, statement, complaint, request, etc.)" ++
  nl ++ "2. Emotional tone (happy, frustrated, neutral, excited, etc.)" ++
  nl ++ "3. Key topics mentioned (list the main 1-3 topics)" ++
  nl ++ "4. Expected response type (information, sympathy, engagement, etc.)" ++
  nl ++ nl ++ "Format your response as JSON with these keys: \"intent\", \"sentiment\", \"topics\" (as a list), \"response_type\"." ++
  nl ++ "Only include the JSON in your response, nothing else." ++ nl

/-- Required keys of the Analyze-stage record (logic.py line 52). -/
def analysisRequiredKeys : List String :=
  ["intent", "sentiment", "topics", "response_type"]

/-- Fallback analysis record returned when JSON decoding fails
(logic.py lines 66-71). -/
def analysisFallback : PyDict :=
  [("intent", .str "unknown"), ("sentiment", .str "neutral"),
   ("topics", .vlist [.str "general"]), ("response_type", .str "engagement")]

/-- Body of the key-completion loop of `analyze_post` (logic.py lines
53-55): a missing key is set to the string `"unknown"`. -/
def ensureUnknown (acc : PyDict) (k : String) : PyDict :=
  if (lookupKey acc k).isSome then acc else setKey acc k (.str "unknown")

/-- Key-completion loop of `analyze_post` (logic.py lines 52-55): every
missing required key is set to the string `"unknown"`; Python dict
assignment appends new keys in iteration order. -/
def ensureAnalysisKeys (kvs : PyDict) : PyDict :=
  analysisRequiredKeys.foldl ensureUnknown kvs

/-- List-coercion step of `analyze_post` (logic.py lines 57-59): a non-list
`topics` value is wrapped into a singleton list. The missing-key branch is
unreachable after `ensureAnalysisKeys` (a raised `KeyError` would anyway be
caught into the fallback). -/
def coerceTopics (kvs : PyDict) : PyDict :=
  match lookupKey kvs "topics" with
  | some (.vlist _) => kvs
  | some v => setKey kvs "topics" (.vlist [v])
  | none => kvs

/-- Model of the JSON-extraction half of `analyze_post` (logic.py lines
43-71). The external `json.loads` is the parameter `loads`: `none` models
a raised `json.JSONDecodeError` (caught, yielding the fallback record) and
`some v` a successful decode of the selected text to `v`. When the decoded
value is not a dict, the `key not in analysis_data` membership test or the
item assignment raises a `TypeError`, which the `except` clause (which
names only `json.JSONDecodeError` and `KeyError`) does not catch. -/
def analyzeExtract (loads : String → Option PyVal) (analysis_text : String) :
    Except Unit PyDict :=
  match loads (selectParseInput analysis_text) with
  | none => .ok analysisFallback
  | some (.dict kvs) => .ok (coerceTopics (ensureAnalysisKeys kvs))
  | some _ => .error ()

/-- Model of `analyze_post` (logic.py lines 12-71): one gateway call with
the analyzer prompts, then JSON extraction with fallback. -/
def analyze_post (invoke : List ChatMessage → Except Unit String)
    (loads : String → Option PyVal) (platform post_text : String) :
    Except Unit PyDict :=
  analyzeExtract loads
    (generate_response invoke (analyzer_prompt platform post_text)
      (some analyzer_system_prompt))

/-- Platform-specific system prompts of `determine_strategy`
(logic.py lines 113-119). -/
def platform_prompts : List (String × String) :=
  [("twitter", "You are an expert in crafting authentic tweets and replies."),
   ("linkedin", "You are an expert in professional LinkedIn communication."),
   ("instagram", "You are an expert in Instagram communication style."),
   ("facebook", "You are an expert in Facebook engagement."),
   ("reddit", "You are an expert in Reddit-style communication.")]

/-- Persona selection of `determine_strategy` (logic.py lines 121-124):
`platform_prompts.get(platform.lower(), generic)`. -/
def personaFor (platform : String) : String :=
  (platform_prompts.lookup (pyLower platform)).getD
    "You are an expert in social media communication."

/-- Strategy prompt of `determine_strategy` (logic.py lines 88-110); the
interpolations subscript the analysis dict and join the topics, either of
which can raise on ill-typed analysis values. -/
def strategy_prompt (platform post_text : String) (analysis : PyDict) :
    Except Unit String := do
  let intentv ← pySub analysis "intent"
  let sentimentv ← pySub analysis "sentiment"
  let topicsv ← pySub analysis "topics"
  let responsetypev ← pySub analysis "response_type"
  let topicsJoined ← pyJoin ", " topicsv
  .ok (nl ++ "Given this analysis of a " ++ pyUpper platform ++ " post:" ++
    nl ++ nl ++ "Post: \"" ++ post_text ++ "\"" ++
    nl ++ nl ++ "Analysis:" ++
    nl ++ "- Intent: " ++ pyStr intentv ++
    nl ++ "- Sentiment: " ++ pyStr sentimentv ++
    nl ++ "- Topics: " ++ topicsJoined ++
    nl ++ "- Expected response type: " ++ pyStr responsetypev ++
    nl ++ nl ++ "Develop a strategy for a natural, human-like response that:" ++
    nl ++ "1. Addresses the core intent" ++
    nl ++ "2. Matches or appropriately responds to the emotional tone" ++
    nl ++ "3. Feels authentic to " ++ pyUpper platform ++ apo ++ "s communication style" ++
    nl ++ "4. Avoids typical AI patterns (excessive formality, generic statements)" ++
    nl ++ nl ++ "Provide your strategy in JSON format with these keys:" ++
    nl ++ "- \"strategy_summary\" (1-2 sentences)" ++
    nl ++ "- \"considerations\" (list of 2-3 points)" ++
    nl ++ nl ++ "Only include the JSON in your response, nothing else." ++ nl)

/-- Fallback strategy record (logic.py lines 148-151). -/
def strategyFallback : PyDict :=
  [("strategy_summary", .str "Respond naturally to the post."),
   ("considerations",
     .vlist [.str "Keep it authentic", .str "Address the main points"])]

/-- Key-completion of `determine_strategy` (logic.py lines 138-141). -/
def ensureStrategyKeys (kvs : PyDict) : PyDict :=
  let kvs1 :=
    if (lookupKey kvs "strategy_summary").isSome then kvs
    else setKey kvs "strategy_summary" (.str "Respond naturally to the post.")
  if (lookupKey kvs1 "considerations").isSome then kvs1
  else setKey kvs1 "considerations"
    (.vlist [.str "Keep it authentic", .str "Address the main points"])

/-- Model of the JSON-extraction half of `determine_strategy`
(logic.py lines 129-151), identical in shape to `analyzeExtract`. -/
def strategizeExtract (loads : String → Option PyVal) (strategy_text : String) :
    Except Unit PyDict :=
  match loads (selectParseInput strategy_text) with
  | none => .ok strategyFallback
  | some (.dict kvs) => .ok (ensureStrategyKeys kvs)
  | some _ => .error ()

/-- Model of `determine_strategy` (logic.py lines 74-151). -/
def determine_strategy (invoke : List ChatMessage → Except Unit String)
    (loads : String → Option PyVal) (platform post_text : String)
    (analysis : PyDict) : Except Unit PyDict := do
  let prompt ← strategy_prompt platform post_text analysis
  strategizeExtract loads
    (generate_response invoke prompt (some (personaFor platform)))

/-- Platform style notes of `generate_platform_reply`
(logic.py lines 173-179). -/
def platform_characteristics : List (String × String) :=
  [("twitter", "brief (under 280 chars), conversational, often using hashtags, casual language"),
   ("linkedin", "professional but personable, thoughtful, industry-focused"),
   ("instagram", "visual-focused references, emoji-rich, positive, brief"),
   ("facebook", "personal, conversational, community-oriented, varied length"),
   ("reddit", "topic-focused, can reference subreddit culture, varying formality")]

/-- Style selection of `generate_platform_reply` (logic.py lines 181-184):
`platform_characteristics.get(platform.lower(), generic)`. -/
def styleFor (platform : String) : String :=
  (platform_characteristics.lookup (pyLower platform)).getD
    "conversational, authentic, human-like"

/-- Generator prompt of `generate_platform_reply` (logic.py lines 186-207),
including the `considerations` join computed just before it. -/
def generator_prompt (platform post_text : String)
    (analysis strategy : PyDict) : Except Unit String := do
  let considerations ←
    pyJoin ", " ((lookupKey strategy "considerations").getD (.vlist [.str "Be authentic"]))
  let topicsJoined ←
    pyJoin ", " ((lookupKey analysis "topics").getD (.vlist [.str "general"]))
  .ok (nl ++ "Write a reply to this " ++ pyUpper platform ++ " post:" ++
    nl ++ nl ++ "\"" ++ post_text ++ "\"" ++
    nl ++ nl ++ "Strategy: " ++
      pyStr ((lookupKey strategy "strategy_summary").getD (.str "Respond naturally")) ++
    nl ++ nl ++ "Important considerations: " ++ considerations ++
    nl ++ nl ++ "Your reply should:" ++
    nl ++ "- Match " ++ pyUpper platform ++ " style: " ++ styleFor platform ++
    nl ++ "- Sound like a real " ++ pyUpper platform ++ " user (not an AI)" ++
    nl ++ "- Respond to the post" ++ apo ++ "s intent (" ++
      pyStrOpt (lookupKey analysis "intent") ++ ") and tone (" ++
      pyStrOpt (lookupKey analysis "sentiment") ++ ")" ++
    nl ++ "- Be about the topics: " ++ topicsJoined ++
    nl ++ "- Provide a " ++
      pyStr ((lookupKey analysis "response_type").getD (.str "general")) ++
      " type of response" ++
    nl ++ "- Include natural human writing elements (conversational phrases, appropriate informality)" ++
    nl ++ "- Avoid sounding too perfect, formal, or generic" ++
    nl ++ nl ++ "Write ONLY the reply text itself. Do not include explanations or analysis." ++ nl)

/-- System prompt of the Compose stage (logic.py line 209); note the
platform is interpolated in its original case here. -/
def compose_system_prompt (platform : String) : String :=
  "You are a regular " ++ platform ++
  " user having a natural conversation. Write replies that sound like a real person, not an AI."

/-- Label texts stripped from the head of the composed reply
(logic.py lines 217-220). -/
def prefixes_to_remove : List String :=
  ["Reply:", "Here" ++ apo ++ "s my reply:", "Here is my reply:",
   "Here" ++ apo ++ "s a reply:", "Here is a reply:"]

/-- One iteration of the label-strip loop of `generate_platform_reply`
(logic.py lines 222-224): remove the label if it heads the current text,
re-stripping after the removal. -/
def stripStep (acc : String) (p : String) : String :=
  if pyStartswith p acc then pyStrip (pyDropChars acc p.data.length) else acc

/-- Post-processing of the composed reply (logic.py lines 213-225): strip
surrounding whitespace, then walk the fixed label list in order:

    reply_text = reply_text.strip()
    for prefix in prefixes_to_remove:
        if reply_text.startswith(prefix):
            reply_text = reply_text[len(prefix):].strip()
-/
def stripReply (reply_text : String) : String :=
  prefixes_to_remove.foldl stripStep (pyStrip reply_text)

/-- Model of `generate_platform_reply` (logic.py lines 154-226): one
gateway call with the generator prompts, then the label strip. -/
def generate_platform_reply (invoke : List ChatMessage → Except Unit String)
    (platform post_text : String) (analysis strategy : PyDict) :
    Except Unit String := do
  let prompt ← generator_prompt platform post_text analysis strategy
  .ok (stripReply
    (generate_response invoke prompt (some (compose_system_prompt platform))))

/-- Metadata block of the orchestrator result (logic.py lines 271-275);
`generation_time` comes from `total_seconds()` of a timestamp difference,
with time points modelled as integers. -/
structure ReplyMetadata where
  generation_time : Int
  strategy : Option PyVal
  model : String

/-- Result record assembled by the orchestrator (logic.py lines 266-280). -/
structure ReplyRecord where
  reply_text : String
  platform : String
  post_text : String
  created_at : Int
  metadata : ReplyMetadata
  analysis : Option PyDict

/-- External world of one orchestrator run: the model invocation, the JSON
decoder, the database outcomes, and the three successive wall-clock
readings of `datetime.now(timezone.utc)` taken at logic.py lines 248, 264
and 270. -/
structure Env where
  invoke : List ChatMessage → Except Unit String
  loads : String → Option PyVal
  dbAvailable : Bool
  insertResult : Option String
  t0 : Int
  t1 : Int
  t2 : Int

/-- Model of the orchestrator `generate_reply` (logic.py lines 229-285).
The `context` parameter is accepted and, exactly as in the source, never
used. The record handed to `Database.store_reply` always carries a
`created_at` key, so the store call cannot raise; its returned id is
discarded. -/
def generate_reply (env : Env) (platform post_text : String)
    (context : Option String) (include_analysis : Bool) :
    Except Unit ReplyRecord := do
  let analysis ← analyze_post env.invoke env.loads platform post_text
  let strategy ← determine_strategy env.invoke env.loads platform post_text analysis
  let reply_text ← generate_platform_reply env.invoke platform post_text analysis strategy
  let result : ReplyRecord :=
    { reply_text := reply_text
      platform := platform
      post_text := post_text
      created_at := env.t2
      metadata :=
        { generation_time := env.t1 - env.t0
          strategy := lookupKey strategy "strategy_summary"
          model := "Google Gemini" }
      analysis := if include_analysis then some analysis else none }
  let _ ← store_reply env.dbAvailable env.insertResult true
  .ok result

/-- Fence selection as claim C9 words it, read strictly: written from the
claim sentence, not from the source, for comparison with `selectL`. A
fenced block tagged as structured data exists only when the text contains
the `json` marker with a closing generic fence after it, and then the
content between that first fence pair is used; a generic fenced block
likewise needs a second fence after the first; otherwise the raw text is
used unmodified. -/
def selectSpecStrict (t : List Char) : List Char :=
  if pyIn fenceJson t && pyIn fenceGen (afterFirst fenceJson t) then
    pyStripL (beforeFirst fenceGen (afterFirst fenceJson t))
  else if pyIn fenceGen t && pyIn fenceGen (afterFirst fenceGen t) then
    pyStripL (beforeFirst fenceGen (afterFirst fenceGen t))
  else t

/-- String-level wrapper of `selectSpecStrict`. -/
def selectSpecStrictS (t : String) : String := ⟨selectSpecStrict t.data⟩

/-- Fence selection as amended for claim C9, phrased with first-occurrence
segments instead of `split` indexing: the parse input is the segment
between the first and second occurrences of the matched marker (running to
the end of the text when the marker occurs only once), the `json`-tagged
segment being additionally cut before its first generic fence and the
result stripped. -/
def selectAmended (t : List Char) : List Char :=
  if pyIn fenceJson t then
    pyStripL (beforeFirst fenceGen (beforeFirst fenceJson (afterFirst fenceJson t)))
  else if pyIn fenceGen t then
    pyStripL (beforeFirst fenceGen (afterFirst fenceGen t))
  else t

/-- String-level wrapper of `selectAmended`. -/
def selectAmendedS (t : String) : String := ⟨selectAmended t.data⟩

/-- Checked removal chain used to state the amended claim C3: remove the
given labels in order, each of which must head the current text at its
turn, re-stripping after every removal. -/
def removalsChecked (ps : List String) (s : String) : Option String :=
  ps.foldlM
    (fun acc p =>
      if pyStartswith p acc then some (pyStrip (pyDropChars acc p.data.length))
      else none)
    s

/-- Raw model text whose trimmed form starts with two different labels of
the fixed list in succession. -/
def twoLabelText : String := "Reply: Here" ++ apo ++ "s my reply: hi"

/-- Raw model text whose trimmed form starts with the same label twice. -/
def repeatedLabelText : String := "Reply: Reply: hi"

/-- Raw model text with an opening `json` fence and no closing fence. -/
def unclosedFenceText : String :=
  "```json \x7b\"intent\": \"question\"\x7d"

/-- Model output that decodes to a record whose `topics` value is the
empty list. -/
def emptyTopicsText : String :=
  "\x7b\"intent\": \"statement\", \"sentiment\": \"happy\", \"topics\": [], \"response_type\": \"engagement\"\x7d"

/-- Decoded form of `emptyTopicsText`. -/
def emptyTopicsDict : PyDict :=
  [("intent", .str "statement"), ("sentiment", .str "happy"),
   ("topics", .vlist []), ("response_type", .str "engagement")]

/-- One possible behaviour of `json.loads`: decodes `emptyTopicsText` to
its record and raises on everything else. -/
def loadsEmptyTopics : String → Option PyVal :=
  fun s => if s = emptyTopicsText then some (.dict emptyTopicsDict) else none

/-- Environment in which the model always answers `emptyTopicsText` and
the decoder behaves as `loadsEmptyTopics`. -/
def emptyTopicsEnv : Env :=
  { invoke := fun _ => .ok emptyTopicsText
    loads := loadsEmptyTopics
    dbAvailable := true
    insertResult := some "id1"
    t0 := 0
    t1 := 1
    t2 := 2 }

/-- Environment of the degraded end-to-end run: every model invocation
fails and nothing decodes. -/
def degradedEnv : Env :=
  { invoke := fun _ => .error ()
    loads := fun _ => none
    dbAvailable := false
    insertResult := none
    t0 := 0
    t1 := 1
    t2 := 2 }

/-- Record returned by the orchestrator in `degradedEnv` for the twitter
example post with analysis requested. -/
def degradedRecord : ReplyRecord :=
  { reply_text := gatewayFallback
    platform := "twitter"
    post_text := "Just shipped a new feature!"
    created_at := 2
    metadata :=
      { generation_time := 1
        strategy := some (.str "Respond naturally to the post.")
        model := "Google Gemini" }
    analysis := some analysisFallback }

/-! ## Helper lemmas on the string primitives -/

theorem pyStripL_fix (l : List Char) : pyStripL (pyStripL l) = pyStripL l := by
  unfold pyStripL
  rcases haa : l.dropWhile pyWs with _ | ⟨y, ys⟩
  · simp [List.rdropWhile]
  · have hy : pyWs y = false := by
      have hne : l.dropWhile pyWs ≠ [] := by rw [haa]; simp
      have h1 := List.head_dropWhile_not pyWs l hne
      have h2 : (l.dropWhile pyWs).head hne = y := by
        simp [haa]
      rw [h2] at h1
      simpa using h1
    have hb : (List.rdropWhile pyWs (y :: ys)).dropWhile pyWs =
        List.rdropWhile pyWs (y :: ys) := by
      rcases hbe : List.rdropWhile pyWs (y :: ys) with _ | ⟨x, bs⟩
      · simp
      · have hpre : x :: bs <+: y :: ys := hbe ▸ List.rdropWhile_prefix pyWs (y :: ys)
        obtain ⟨tl, htl⟩ := hpre
        have hx : x = y := by
          have := htl
          simp only [List.cons_append] at this
          exact (List.cons.injEq .. ▸ this).1
        rw [List.dropWhile_cons, hx, hy]
        simp
    rw [hb, List.rdropWhile_idempotent]

theorem pyStrip_fix (s : String) : pyStrip (pyStrip s) = pyStrip s :=
  congrArg String.mk (pyStripL_fix s.data)

theorem stripStep_fix (acc p : String) (h : pyStrip acc = acc) :
    pyStrip (stripStep acc p) = stripStep acc p := by
  unfold stripStep
  by_cases hc : pyStartswith p acc = true
  · simp only [hc, if_true]
    exact pyStrip_fix _
  · simp only [Bool.not_eq_true] at hc
    simp only [hc, Bool.false_eq_true, if_false]
    exact h

theorem foldl_stripStep_fix (ps : List String) (acc : String)
    (h : pyStrip acc = acc) :
    pyStrip (ps.foldl stripStep acc) = ps.foldl stripStep acc := by
  induction ps generalizing acc with
  | nil => simpa using h
  | cons p ps ih =>
    simp only [List.foldl_cons]
    exact ih _ (stripStep_fix acc p h)

theorem pyStrip_stripReply (t : String) : pyStrip (stripReply t) = stripReply t :=
  foldl_stripStep_fix _ _ (pyStrip_fix t)

theorem foldl_stripStep_id (ps : List String) (acc : String)
    (h : ∀ p ∈ ps, pyStartswith p acc = false) : ps.foldl stripStep acc = acc := by
  induction ps with
  | nil => rfl
  | cons p ps ih =>
    have h1 : pyStartswith p acc = false := h p (List.mem_cons_self p ps)
    have hstep : stripStep acc p = acc := by
      unfold stripStep
      simp [h1]
    simp only [List.foldl_cons, hstep]
    exact ih fun q hq => h q (List.mem_cons_of_mem p hq)

theorem removalsChecked_sublist_gen (l : List String) (acc : String) :
    ∃ ps, ps.Sublist l ∧ removalsChecked ps acc = some (l.foldl stripStep acc) := by
  induction l generalizing acc with
  | nil => exact ⟨[], List.Sublist.refl _, rfl⟩
  | cons p l ih =>
    by_cases hc : pyStartswith p acc = true
    · obtain ⟨ps, hs, he⟩ := ih (pyStrip (pyDropChars acc p.data.length))
      refine ⟨p :: ps, List.Sublist.cons₂ _ hs, ?_⟩
      have hstep : stripStep acc p = pyStrip (pyDropChars acc p.data.length) := by
        unfold stripStep
        simp [hc]
      simp only [removalsChecked, List.foldlM_cons, hc, if_true, Option.bind_eq_bind,
        Option.some_bind, List.foldl_cons, hstep]
      exact he
    · obtain ⟨ps, hs, he⟩ := ih acc
      refine ⟨ps, hs.cons _, ?_⟩
      simp only [Bool.not_eq_true] at hc
      have hstep : stripStep acc p = acc := by
        unfold stripStep
        simp [hc]
      simp only [List.foldl_cons, hstep]
      exact he

/-! ## Claims C3 and C4 -/

/-- Counterexample to claim C3 as stated: on the raw text `twoLabelText`,
which starts with the label `Reply:` followed by the second label of the
fixed list, the post-processing removes two labels, so its output is
neither the trimmed text nor the trimmed text with a single label
removed. -/
theorem stripReply_two_labels_removed :
    ¬ (stripReply twoLabelText = pyStrip twoLabelText ∨
       ∃ p ∈ prefixes_to_remove, pyStartswith p (pyStrip twoLabelText) = true ∧
         stripReply twoLabelText =
           pyStrip (pyDropChars (pyStrip twoLabelText) p.data.length)) := by
  decide

/-- Claim C3 (amended): for every raw model text, the Compose-stage
post-processing first trims surrounding whitespace and then removes a
subsequence of the fixed label list in list order — each label is tried
once, in order, and removed (with re-trimming) when it heads the current
text — so several distinct labels may be removed from the same text, but
each listed label at most once. -/
theorem stripReply_removes_label_subsequence (t : String) :
    ∃ ps, ps.Sublist prefixes_to_remove ∧
      removalsChecked ps (pyStrip t) = some (stripReply t) :=
  removalsChecked_sublist_gen prefixes_to_remove (pyStrip t)

/-- Counterexample to claim C4 as stated: on the raw text
`"Reply: Reply: hi"` the post-processed output still begins with the fixed
label `"Reply:"`, and a second application of the strip changes the text,
so the strip is not idempotent. -/
theorem stripReply_label_remains :
    pyStartswith "Reply:" (stripReply repeatedLabelText) = true ∧
    "Reply:" ∈ prefixes_to_remove ∧
    stripReply (stripReply repeatedLabelText) ≠ stripReply repeatedLabelText :=
  ⟨rfl, by decide, by decide⟩

/-- Claim C4 (amended): the Compose-stage output can still begin with a
fixed label when the raw text repeats one; on every input whose
post-processed output begins with none of the fixed labels, a second
application of the prefix-strip leaves the output unchanged. -/
theorem stripReply_idem_of_no_label (t : String)
    (h : ∀ p ∈ prefixes_to_remove, pyStartswith p (stripReply t) = false) :
    stripReply (stripReply t) = stripReply t :=
  calc stripReply (stripReply t)
      = prefixes_to_remove.foldl stripStep (pyStrip (stripReply t)) := rfl
    _ = prefixes_to_remove.foldl stripStep (stripReply t) := by
        rw [pyStrip_stripReply]
    _ = stripReply t := foldl_stripStep_id _ _ h

/-- Witness for the amended claim C4 at the concrete input `"hello"`,
whose output begins with no label. -/
theorem stripReply_idem_witness :
    stripReply (stripReply "hello") = stripReply "hello" :=
  stripReply_idem_of_no_label "hello" (by decide)

/-! ## Helper lemmas on `firstOcc` and `splitPy` -/

theorem firstOcc_decomp (sep : List Char) :
    ∀ l pre post, firstOcc sep l = some (pre, post) → l = pre ++ sep ++ post := by
  intro l
  induction l with
  | nil =>
    intro pre post h
    by_cases hs : sep = []
    · subst hs
      simp only [firstOcc, if_true, Option.some.injEq, Prod.mk.injEq] at h
      obtain ⟨h1, h2⟩ := h
      subst h1
      subst h2
      rfl
    · simp [firstOcc, hs] at h
  | cons c cs ih =>
    intro pre post h
    simp only [firstOcc] at h
    by_cases hp : sep.isPrefixOf (c :: cs) = true
    · simp only [hp, if_true, Option.some.injEq, Prod.mk.injEq] at h
      obtain ⟨h1, h2⟩ := h
      subst h1
      subst h2
      obtain ⟨t, ht⟩ := List.isPrefixOf_iff_prefix.mp hp
      rw [← ht]
      simp [List.drop_left]
    · simp only [hp, Bool.false_eq_true, if_false] at h
      cases he : firstOcc sep cs with
      | none => rw [he] at h; cases h
      | some pp =>
        obtain ⟨pre1, post1⟩ := pp
        rw [he] at h
        simp only [Option.some.injEq, Prod.mk.injEq] at h
        obtain ⟨h1, h2⟩ := h
        subst h1
        subst h2
        have hd := ih pre1 post1 he
        rw [hd]
        rfl


theorem firstOcc_pre_none (sep : List Char) (hsep : sep ≠ []) :
    ∀ l pre post, firstOcc sep l = some (pre, post) → firstOcc sep pre = none := by
  intro l
  induction l with
  | nil =>
    intro pre post h
    simp [firstOcc, hsep] at h
  | cons c cs ih =>
    intro pre post h
    simp only [firstOcc] at h
    by_cases hp : sep.isPrefixOf (c :: cs) = true
    · simp only [hp, if_true, Option.some.injEq, Prod.mk.injEq] at h
      rw [← h.1]
      simp [firstOcc, hsep]
    · simp only [hp, Bool.false_eq_true, if_false] at h
      cases he : firstOcc sep cs with
      | none => rw [he] at h; cases h
      | some pp =>
        obtain ⟨pre1, post1⟩ := pp
        rw [he] at h
        simp only [Option.some.injEq, Prod.mk.injEq] at h
        obtain ⟨h1, h2⟩ := h
        subst h1
        have hnp : sep.isPrefixOf (c :: pre1) = false := by
          by_contra hcon
          simp only [Bool.not_eq_false] at hcon
          have hd := firstOcc_decomp sep cs pre1 post1 he
          have hp1 : sep <+: c :: pre1 := List.isPrefixOf_iff_prefix.mp hcon
          have hp2 : c :: pre1 <+: c :: cs :=
            ⟨sep ++ post1, by rw [hd]; simp⟩
          have : sep.isPrefixOf (c :: cs) = true :=
            List.isPrefixOf_iff_prefix.mpr (hp1.trans hp2)
          exact hp this
        simp only [firstOcc, hnp, Bool.false_eq_true, if_false]
        rw [ih pre1 post1 he]

theorem firstOcc_beforeFirst (sep : List Char) (hsep : sep ≠ []) (l : List Char) :
    firstOcc sep (beforeFirst sep l) = none := by
  unfold beforeFirst
  cases h : firstOcc sep l with
  | none => exact h
  | some pp =>
    obtain ⟨pre, post⟩ := pp
    exact firstOcc_pre_none sep hsep l pre post h

theorem beforeFirst_idem (sep : List Char) (hsep : sep ≠ []) (l : List Char) :
    beforeFirst sep (beforeFirst sep l) = beforeFirst sep l := by
  conv_lhs => rw [beforeFirst]
  rw [firstOcc_beforeFirst sep hsep l]

theorem splitPyF_head (n : Nat) (sep l : List Char) :
    (splitPyF (n + 1) sep l).getD 0 [] = beforeFirst sep l := by
  simp only [splitPyF]
  cases h : firstOcc sep l with
  | none => simp [beforeFirst, h]
  | some pp =>
    obtain ⟨pre, post⟩ := pp
    simp [beforeFirst, h]

theorem splitPy_getD_zero (sep l : List Char) :
    (splitPy sep l).getD 0 [] = beforeFirst sep l :=
  splitPyF_head l.length sep l

theorem splitPy_getD_one (sep : List Char) (hsep : sep ≠ []) (l : List Char)
    (h : pyIn sep l = true) :
    (splitPy sep l).getD 1 [] = beforeFirst sep (afterFirst sep l) := by
  unfold pyIn at h
  cases he : firstOcc sep l with
  | none => rw [he] at h; cases h
  | some pp =>
    obtain ⟨pre, post⟩ := pp
    have hd := firstOcc_decomp sep l pre post he
    have hlen : ∃ m, l.length = m + 1 := by
      rcases sep with _ | ⟨s, ss⟩
      · exact absurd rfl hsep
      · refine ⟨pre.length + ss.length + post.length, ?_⟩
        rw [hd]
        simp [List.length_append]
        omega
    obtain ⟨m, hm⟩ := hlen
    have ha : afterFirst sep l = post := by
      unfold afterFirst
      rw [he]
    unfold splitPy
    simp only [splitPyF, he, hm]
    rw [ha, List.getD_cons_succ]
    exact splitPyF_head m sep post

theorem selectL_eq_selectAmended (l : List Char) : selectL l = selectAmended l := by
  unfold selectL selectAmended
  by_cases hj : pyIn fenceJson l = true
  · simp only [hj, if_true]
    rw [splitPy_getD_one fenceJson (by decide) l hj, splitPy_getD_zero]
  · simp only [hj, Bool.false_eq_true, if_false]
    by_cases hg : pyIn fenceGen l = true
    · simp only [hg, if_true]
      rw [splitPy_getD_one fenceGen (by decide) l hg, splitPy_getD_zero,
        beforeFirst_idem fenceGen (by decide)]
    · simp only [hg, Bool.false_eq_true, if_false]

/-! ## Claim C9 -/

/-- Counterexample to claim C9 as stated: on a text whose `json` fence is
never closed there is no fence pair at all, so the stated selection keeps
the raw text unmodified, while the code still takes everything after the
opening marker. -/
theorem selectParseInput_unclosed_fence :
    selectParseInput unclosedFenceText = "\x7b\"intent\": \"question\"\x7d" ∧
    selectSpecStrictS unclosedFenceText = unclosedFenceText ∧
    ("\x7b\"intent\": \"question\"\x7d" : String) ≠ unclosedFenceText :=
  ⟨rfl, rfl, by decide⟩

/-- Claim C9 (amended): for every raw model text, the fence-selection step
picks its parse input by the first matching rule: if the text contains the
marker of a structured-data fence, the segment between the first and
second occurrences of that marker (to the end of the text when it occurs
only once), cut before the first generic fence inside it and trimmed;
otherwise, if the text contains a generic fence, the segment between the
first and second occurrences of the generic fence (to the end when only
one occurs), trimmed; otherwise the raw text unmodified. -/
theorem selectParseInput_eq_amended (t : String) :
    selectParseInput t = selectAmendedS t :=
  congrArg String.mk (selectL_eq_selectAmended t.data)

/-! ## Helper lemmas on the dict operations and the Analyze extraction -/

theorem lookup_setKey_self (kvs : PyDict) (k : String) (v : PyVal) :
    lookupKey (setKey kvs k v) k = some v := by
  induction kvs with
  | nil => simp [setKey, lookupKey]
  | cons kv rest ih =>
    obtain ⟨k1, v1⟩ := kv
    by_cases h : k1 = k
    · simp [setKey, lookupKey, h]
    · simp [setKey, lookupKey, h, ih]

theorem lookup_setKey_other (kvs : PyDict) (k k2 : String) (v : PyVal)
    (h : k2 ≠ k) : lookupKey (setKey kvs k v) k2 = lookupKey kvs k2 := by
  have hne : ¬ k = k2 := fun he => h he.symm
  induction kvs with
  | nil => simp [setKey, lookupKey, hne]
  | cons kv rest ih =>
    obtain ⟨k1, v1⟩ := kv
    by_cases h1 : k1 = k
    · subst h1
      simp [setKey, lookupKey, hne]
    · simp [setKey, lookupKey, h1, ih]

theorem ensureUnknown_preserves (acc : PyDict) (kk k : String) (v : PyVal)
    (h : lookupKey acc k = some v) :
    lookupKey (ensureUnknown acc kk) k = some v := by
  unfold ensureUnknown
  by_cases hp : (lookupKey acc kk).isSome = true
  · simp [hp, h]
  · have hkk : k ≠ kk := by
      intro he
      subst he
      rw [h] at hp
      simp at hp
    simp only [hp, Bool.false_eq_true, if_false]
    rw [lookup_setKey_other acc kk k _ hkk]
    exact h

theorem ensureUnknown_self_isSome (acc : PyDict) (kk : String) :
    (lookupKey (ensureUnknown acc kk) kk).isSome := by
  unfold ensureUnknown
  by_cases hp : (lookupKey acc kk).isSome = true
  · simp [hp]
  · simp [hp, lookup_setKey_self]

theorem foldl_ensure_preserves (keys : List String) (acc : PyDict)
    (k : String) (v : PyVal) (h : lookupKey acc k = some v) :
    lookupKey (keys.foldl ensureUnknown acc) k = some v := by
  induction keys generalizing acc with
  | nil => exact h
  | cons k1 keys ih =>
    simp only [List.foldl_cons]
    exact ih _ (ensureUnknown_preserves acc k1 k v h)

theorem foldl_ensure_mem_isSome (keys : List String) :
    ∀ (acc : PyDict) (k : String), k ∈ keys →
      (lookupKey (keys.foldl ensureUnknown acc) k).isSome := by
  induction keys with
  | nil => intro acc k h; cases h
  | cons k1 keys ih =>
    intro acc k h
    simp only [List.foldl_cons]
    rcases List.mem_cons.mp h with rfl | hmem
    · have h1 := ensureUnknown_self_isSome acc k
      obtain ⟨v, hv⟩ := Option.isSome_iff_exists.mp h1
      rw [foldl_ensure_preserves keys _ k v hv]
      rfl
    · exact ih _ k hmem

theorem foldl_ensure_rev (keys : List String) (acc : PyDict) (k : String)
    (v : PyVal) (h : lookupKey (keys.foldl ensureUnknown acc) k = some v) :
    lookupKey acc k = some v ∨ v = .str "unknown" := by
  induction keys generalizing acc with
  | nil => exact Or.inl h
  | cons k1 keys ih =>
    simp only [List.foldl_cons] at h
    rcases ih _ h with h2 | h2
    · unfold ensureUnknown at h2
      by_cases hp : (lookupKey acc k1).isSome = true
      · rw [if_pos hp] at h2
        exact Or.inl h2
      · rw [if_neg hp] at h2
        by_cases hk : k = k1
        · subst hk
          rw [lookup_setKey_self] at h2
          injection h2 with h3
          exact Or.inr h3.symm
        · rw [lookup_setKey_other acc k1 k _ hk] at h2
          exact Or.inl h2
    · exact Or.inr h2

theorem coerceTopics_topics_vlist (kvs : PyDict)
    (h : (lookupKey kvs "topics").isSome) :
    ∃ ts, lookupKey (coerceTopics kvs) "topics" = some (.vlist ts) := by
  unfold coerceTopics
  obtain ⟨v, hv⟩ := Option.isSome_iff_exists.mp h
  rw [hv]
  cases v with
  | vlist xs => exact ⟨xs, hv⟩
  | str s => exact ⟨[.str s], lookup_setKey_self kvs "topics" _⟩
  | num n => exact ⟨[.num n], lookup_setKey_self kvs "topics" _⟩
  | dict d => exact ⟨[.dict d], lookup_setKey_self kvs "topics" _⟩

theorem coerceTopics_preserves_isSome (kvs : PyDict) (k : String)
    (h : (lookupKey kvs k).isSome) :
    (lookupKey (coerceTopics kvs) k).isSome := by
  unfold coerceTopics
  cases hv : lookupKey kvs "topics" with
  | none => exact h
  | some v =>
    cases v with
    | vlist xs => exact h
    | str s =>
      by_cases hk : k = "topics"
      · subst hk
        rw [lookup_setKey_self]
        rfl
      · rw [lookup_setKey_other kvs "topics" k _ hk]
        exact h
    | num n =>
      by_cases hk : k = "topics"
      · subst hk
        rw [lookup_setKey_self]
        rfl
      · rw [lookup_setKey_other kvs "topics" k _ hk]
        exact h
    | dict d =>
      by_cases hk : k = "topics"
      · subst hk
        rw [lookup_setKey_self]
        rfl
      · rw [lookup_setKey_other kvs "topics" k _ hk]
        exact h

theorem coerceTopics_empty_rev (kvs : PyDict)
    (h : lookupKey (coerceTopics kvs) "topics" = some (.vlist [])) :
    lookupKey kvs "topics" = some (.vlist []) := by
  unfold coerceTopics at h
  cases hv : lookupKey kvs "topics" with
  | none =>
    rw [hv] at h
    rw [← hv]
    exact h
  | some v =>
    rw [hv] at h
    cases v with
    | vlist xs =>
      rw [← hv]
      exact h
    | str s =>
      have h2 : lookupKey (setKey kvs "topics" (PyVal.vlist [PyVal.str s]))
          "topics" = some (PyVal.vlist []) := h
      rw [lookup_setKey_self] at h2
      injection h2 with h1
      cases h1
    | num n =>
      have h2 : lookupKey (setKey kvs "topics" (PyVal.vlist [PyVal.num n]))
          "topics" = some (PyVal.vlist []) := h
      rw [lookup_setKey_self] at h2
      injection h2 with h1
      cases h1
    | dict d =>
      have h2 : lookupKey (setKey kvs "topics" (PyVal.vlist [PyVal.dict d]))
          "topics" = some (PyVal.vlist []) := h
      rw [lookup_setKey_self] at h2
      injection h2 with h1
      cases h1

theorem analyzeExtract_keys (loads : String → Option PyVal) (text : String)
    (r : PyDict) (h : analyzeExtract loads text = .ok r) :
    ∀ k ∈ analysisRequiredKeys, (lookupKey r k).isSome := by
  unfold analyzeExtract at h
  cases hl : loads (selectParseInput text) with
  | none =>
    rw [hl] at h
    injection h with h1
    subst h1
    intro k hk
    fin_cases hk <;> rfl
  | some v =>
    rw [hl] at h
    cases v with
    | dict kvs =>
      injection h with h1
      subst h1
      intro k hk
      exact coerceTopics_preserves_isSome _ k (foldl_ensure_mem_isSome _ kvs k hk)
    | str s => cases h
    | num n => cases h
    | vlist xs => cases h

theorem analyzeExtract_topics (loads : String → Option PyVal) (text : String)
    (r : PyDict) (h : analyzeExtract loads text = .ok r) :
    ∃ ts, lookupKey r "topics" = some (.vlist ts) ∧
      (ts = [] → ∃ kvs, loads (selectParseInput text) = some (.dict kvs) ∧
        lookupKey kvs "topics" = some (.vlist [])) := by
  unfold analyzeExtract at h
  cases hl : loads (selectParseInput text) with
  | none =>
    rw [hl] at h
    injection h with h1
    subst h1
    refine ⟨[.str "general"], rfl, fun he => ?_⟩
    cases he
  | some v =>
    rw [hl] at h
    cases v with
    | dict kvs =>
      injection h with h1
      subst h1
      have hsome : (lookupKey (ensureAnalysisKeys kvs) "topics").isSome :=
        foldl_ensure_mem_isSome analysisRequiredKeys kvs "topics" (by decide)
      obtain ⟨ts, hts⟩ := coerceTopics_topics_vlist _ hsome
      refine ⟨ts, hts, fun hempty => ?_⟩
      subst hempty
      have h0 : lookupKey (ensureAnalysisKeys kvs) "topics" = some (.vlist []) :=
        coerceTopics_empty_rev _ hts
      rcases foldl_ensure_rev analysisRequiredKeys kvs "topics" _ h0 with h1 | h1
      · exact ⟨kvs, rfl, h1⟩
      · cases h1
    | str s => cases h
    | num n => cases h
    | vlist xs => cases h

/-! ## Claim C1 -/

/-- Counterexample to claim C1 as stated: when nothing decodes, the
Analyze-stage extraction returns a record whose sentiment is the string
`"neutral"` and whose response_type is the string `"engagement"`, not the
declared default `"unknown"` the claim names for every field. -/
theorem analyzeExtract_fallback_not_all_unknown :
    analyzeExtract (fun _ => none) "hello" = .ok analysisFallback ∧
    lookupKey analysisFallback "sentiment" = some (.str "neutral") ∧
    lookupKey analysisFallback "response_type" = some (.str "engagement") ∧
    ("neutral" : String) ≠ "unknown" ∧ ("engagement" : String) ≠ "unknown" :=
  ⟨rfl, rfl, rfl, by decide, by decide⟩

/-- Claim C1 (amended): for every raw model text with no parseable
structured content (the decode of the selected text raises), the
Analyze-stage extraction returns the fixed fallback record, which contains
every required field: intent `"unknown"`, sentiment `"neutral"`, topics
`["general"]` and response_type `"engagement"`. -/
theorem analyzeExtract_decode_failure (loads : String → Option PyVal)
    (text : String) (h : loads (selectParseInput text) = none) :
    analyzeExtract loads text = .ok analysisFallback ∧
    lookupKey analysisFallback "intent" = some (.str "unknown") ∧
    lookupKey analysisFallback "sentiment" = some (.str "neutral") ∧
    lookupKey analysisFallback "topics" = some (.vlist [.str "general"]) ∧
    lookupKey analysisFallback "response_type" = some (.str "engagement") := by
  refine ⟨?_, rfl, rfl, rfl, rfl⟩
  unfold analyzeExtract
  rw [h]

/-- Witness for the amended claim C1 at a concrete decoder that always
raises and a concrete raw text. -/
theorem analyzeExtract_decode_failure_witness :
    analyzeExtract (fun _ => none) "no structured content" = .ok analysisFallback ∧
    lookupKey analysisFallback "intent" = some (.str "unknown") ∧
    lookupKey analysisFallback "sentiment" = some (.str "neutral") ∧
    lookupKey analysisFallback "topics" = some (.vlist [.str "general"]) ∧
    lookupKey analysisFallback "response_type" = some (.str "engagement") :=
  analyzeExtract_decode_failure (fun _ => none) "no structured content" rfl

/-! ## Claim C2 -/

/-- Counterexample to claim C2 as stated: a model output that decodes to a
record whose topics field is the empty list is passed through, so the
Analyze stage produces a record with an empty topics sequence. -/
theorem analyze_topics_empty_counterexample :
    (analyze_post (fun _ => .ok emptyTopicsText) loadsEmptyTopics "twitter"
        "Just shipped a new feature!").map (fun r => lookupKey r "topics") =
      .ok (some (.vlist [])) := rfl

/-- Claim C2 (amended): every record the Analyze stage returns carries a
topics field holding a list, and that list is non-empty except in one
case: the model output decoded to a mapping whose own topics value was the
empty list, which is passed through unchanged. -/
theorem analyze_topics_nonempty_unless_decoded_empty
    (invoke : List ChatMessage → Except Unit String)
    (loads : String → Option PyVal) (platform post_text : String) (r : PyDict)
    (h : analyze_post invoke loads platform post_text = .ok r) :
    ∃ ts, lookupKey r "topics" = some (.vlist ts) ∧
      (ts = [] → ∃ kvs,
        loads (selectParseInput (generate_response invoke
          (analyzer_prompt platform post_text) (some analyzer_system_prompt))) =
            some (.dict kvs) ∧
        lookupKey kvs "topics" = some (.vlist [])) :=
  analyzeExtract_topics loads _ r h

/-- Witness for the amended claim C2 in the environment whose model output
decodes to an empty topics list. -/
theorem analyze_topics_nonempty_unless_decoded_empty_witness :
    ∃ ts, lookupKey emptyTopicsDict "topics" = some (.vlist ts) ∧
      (ts = [] → ∃ kvs,
        loadsEmptyTopics (selectParseInput (generate_response
          (fun _ => .ok emptyTopicsText)
          (analyzer_prompt "twitter" "Just shipped a new feature!")
          (some analyzer_system_prompt))) = some (.dict kvs) ∧
        lookupKey kvs "topics" = some (.vlist [])) :=
  analyze_topics_nonempty_unless_decoded_empty (fun _ => .ok emptyTopicsText)
    loadsEmptyTopics "twitter" "Just shipped a new feature!" emptyTopicsDict rfl

/-! ## Claim C5 -/

/-- Claim C5 (code bug): `store_reply` is meant never to throw, yet when
the stored record has no `created_at` key and the database connection is
available, the timestamp fallback evaluates `datetime.timezone` on the
`datetime` class and raises an `AttributeError` that no handler catches.
The same call with `created_at` present succeeds and returns the insert
id, and an unavailable connection is absorbed into a `None` id, as the
claim describes. -/
theorem store_reply_missing_created_at_raises :
    store_reply true (some "abc123") false = .error () ∧
    store_reply true (some "abc123") true = .ok (some "abc123") ∧
    store_reply true none true = .ok none ∧
    store_reply false (some "abc123") false = .ok none :=
  ⟨rfl, rfl, rfl, rfl⟩

/-! ## Claim C6 -/

/-- Claim C6: for every user prompt and optional system prompt, when the
underlying model invocation fails, the gateway `generate_response` does
not propagate the error and returns the literal fallback string; its
`String` result type records that it never raises to its caller. -/
theorem generate_response_failure_fallback
    (invoke : List ChatMessage → Except Unit String)
    (prompt_message : String) (system_prompt : Option String)
    (h : invoke (mkMessages prompt_message system_prompt) = .error ()) :
    generate_response invoke prompt_message system_prompt = gatewayFallback := by
  unfold generate_response
  rw [h]

/-- Witness for claim C6 at an invocation that always fails. -/
theorem generate_response_failure_fallback_witness :
    generate_response (fun _ => .error ()) "Say hi" none = gatewayFallback :=
  generate_response_failure_fallback (fun _ => .error ()) "Say hi" none rfl

/-! ## Claim C8 -/

/-- Claim C8: the platform-to-persona lookup of the Strategize stage and
the platform-to-style lookup of the Compose stage are case-insensitive:
any two platform strings with the same lowercasing select the same persona
and style strings. -/
theorem platform_lookup_case_insensitive (p1 p2 : String)
    (h : pyLower p1 = pyLower p2) :
    personaFor p1 = personaFor p2 ∧ styleFor p1 = styleFor p2 := by
  unfold personaFor styleFor
  rw [h]
  exact ⟨rfl, rfl⟩

/-- Witness for claim C8 at the spec example pair. -/
theorem platform_lookup_case_insensitive_witness :
    personaFor "Twitter" = personaFor "TWITTER" ∧
    styleFor "Twitter" = styleFor "TWITTER" :=
  platform_lookup_case_insensitive "Twitter" "TWITTER" rfl

/-! ## Claim C7 -/

theorem bind_ok_eq {α β ε : Type} (a : α) (f : α → Except ε β) :
    (Except.ok a >>= f) = f a := rfl

theorem bind_error_eq {α β ε : Type} (e : ε) (f : α → Except ε β) :
    ((Except.error e : Except ε α) >>= f) = Except.error e := rfl

theorem store_reply_created_at_ok (d : Bool) (i : Option String) :
    ∃ x, store_reply d i true = .ok x := by
  cases d with
  | false => exact ⟨none, rfl⟩
  | true =>
    cases i with
    | none => exact ⟨none, rfl⟩
    | some id1 => exact ⟨some id1, rfl⟩

/-- Claim C7 (amended): for every environment, platform and post text,
whenever the orchestrator returns a record, that record carries the input
platform and post text, its reply_text is exactly the Compose-stage
output, its generation_time is the clock difference (hence non-negative
whenever the clock is monotone over the run), and it contains the
analysis field exactly when include_analysis is true; a present analysis
has all four required keys and a list-valued topics field that is
non-empty except when the Analyze-stage model output decoded to a mapping
whose own topics value was the empty list. -/
theorem generate_reply_record_shape (env : Env) (platform post_text : String)
    (context : Option String) (include_analysis : Bool) (r : ReplyRecord)
    (h : generate_reply env platform post_text context include_analysis = .ok r) :
    r.platform = platform ∧ r.post_text = post_text ∧
    r.metadata.generation_time = env.t1 - env.t0 ∧
    (env.t0 ≤ env.t1 → 0 ≤ r.metadata.generation_time) ∧
    (r.analysis.isSome ↔ include_analysis = true) ∧
    ∃ a s, analyze_post env.invoke env.loads platform post_text = .ok a ∧
      determine_strategy env.invoke env.loads platform post_text a = .ok s ∧
      generate_platform_reply env.invoke platform post_text a s = .ok r.reply_text ∧
      r.created_at = env.t2 ∧
      r.metadata.strategy = lookupKey s "strategy_summary" ∧
      r.metadata.model = "Google Gemini" ∧
      r.analysis = (if include_analysis then some a else none) ∧
      (∀ k ∈ analysisRequiredKeys, (lookupKey a k).isSome) ∧
      ∃ ts, lookupKey a "topics" = some (.vlist ts) ∧
        (ts = [] → ∃ kvs, env.loads (selectParseInput (generate_response env.invoke
          (analyzer_prompt platform post_text) (some analyzer_system_prompt))) =
            some (.dict kvs) ∧ lookupKey kvs "topics" = some (.vlist [])) := by
  unfold generate_reply at h
  cases ha : analyze_post env.invoke env.loads platform post_text with
  | error e =>
    rw [ha, bind_error_eq] at h
    cases h
  | ok a =>
    simp only [ha, bind_ok_eq] at h
    cases hs : determine_strategy env.invoke env.loads platform post_text a with
    | error e =>
      rw [hs, bind_error_eq] at h
      cases h
    | ok s =>
      simp only [hs, bind_ok_eq] at h
      cases hc : generate_platform_reply env.invoke platform post_text a s with
      | error e =>
        rw [hc, bind_error_eq] at h
        cases h
      | ok rt =>
        simp only [hc, bind_ok_eq] at h
        obtain ⟨x, hx⟩ := store_reply_created_at_ok env.dbAvailable env.insertResult
        rw [hx, bind_ok_eq] at h
        injection h with h1
        subst h1
        refine ⟨rfl, rfl, rfl, fun hm => ?_, ?_, a, s, rfl, hs, hc, rfl, rfl, rfl,
          rfl, analyzeExtract_keys env.loads _ a ha,
          analyzeExtract_topics env.loads _ a ha⟩
        · show (0 : Int) ≤ env.t1 - env.t0
          omega
        · cases include_analysis <;> simp

/-- Counterexample to claim C7 as stated: with include_analysis true and a
model output that decodes to an empty topics list, the orchestrator
returns a record whose analysis field is present but has an empty topics
sequence. -/
theorem generate_reply_empty_topics_counterexample :
    (generate_reply emptyTopicsEnv "twitter" "Just shipped a new feature!"
        none true).map (fun r => r.analysis.map (fun a => lookupKey a "topics")) =
      .ok (some (some (.vlist []))) := rfl

/-- Witness for the amended claim C7 in the degraded environment where
every model call fails: the orchestrator still returns a record carrying
the platform and a non-negative generation time. -/
theorem generate_reply_record_shape_witness :
    degradedRecord.platform = "twitter" ∧
    0 ≤ degradedRecord.metadata.generation_time := by
  have h := generate_reply_record_shape degradedEnv "twitter"
    "Just shipped a new feature!" none true degradedRecord rfl
  exact ⟨h.1, h.2.2.2.1 (by decide)⟩

/-! ## Claim C10 -/

/-- Claim C10: for every environment, platform, post text and
include_analysis flag, any two values of the optional context argument
produce the same orchestrator result: the context parameter has no
influence on any output of the pipeline. -/
theorem generate_reply_context_independent (env : Env)
    (platform post_text : String) (include_analysis : Bool)
    (c1 c2 : Option String) :
    generate_reply env platform post_text c1 include_analysis =
      generate_reply env platform post_text c2 include_analysis := rfl

end SMRG
